import Mathlib

/- Verification of the useq grid-plan module (useq/_grid.py).

Conventions of the shallow embedding:
* Python floats are modelled as rationals (ℚ).
* numpy's seeded RandomState is modelled as an abstract stream of uniform draws:
  the shape samplers consume a stream u : ℕ → ℚ of values in the interval 0..1,
  and the overlap-avoidance loop consumes a stream gen : ℕ → (ℚ × ℚ) of sampled
  points (index = number of candidate points drawn so far, which is well defined
  because every sampler consumes a fixed number of uniforms per point).
* numpy trigonometry is modelled by abstract functions cosA, sinA : ℚ → ℚ where
  cosA t stands for cos (2 * pi * t) and sinA t for sin (2 * pi * t); the genuine
  functions satisfy cosA t ^ 2 + sinA t ^ 2 = 1, which is taken as a hypothesis
  where needed.
* Raised Python exceptions are modelled with Except String.
* The shapely geometry collaborator (explicitly out of scope in the spec) is
  modelled by an abstract structure of operations, GeometryOps. -/

/-- A point in the plane, as used by the random samplers. -/
abbrev Pt := ℚ × ℚ

/-- Position record emitted by grid plans: x, y, grid row/col and zero-padded name. -/
structure GridPos where
  x : ℚ
  y : ℚ
  row : ℕ
  col : ℕ
  name : String
deriving DecidableEq, Repr

/-- Position record emitted by RandomPoints: x, y and zero-padded name. -/
structure RPos where
  x : ℚ
  y : ℚ
  name : String
deriving DecidableEq, Repr

/-- Python str(idx).zfill(4), as used for position names. -/
def zfill4 (n : ℕ) : String :=
  let s := Nat.repr n
  String.mk (List.replicate (4 - s.length) '0') ++ s

/-- Python `x or d` for an optional float x: d when x is None or 0.0, else x. -/
def orDefault (x : Option ℚ) (d : ℚ) : ℚ :=
  match x with
  | none => d
  | some v => if v = 0 then d else v

/-- _GridPlan._step_size: step sizes from FOV and percentage overlap. -/
def stepSize (overlap : ℚ × ℚ) (fov_width fov_height : ℚ) : ℚ × ℚ :=
  (fov_width - fov_width * overlap.1 / 100, fov_height - fov_height * overlap.2 / 100)

/-- Modelled from the spec: the external ordering-index generator (OrderMode of
useq._point_visiting, not part of the provided source) for the default
row-wise-snake mode: rows are traversed top to bottom, columns left to right on
even rows and right to left on odd rows. -/
def rowWiseSnakeIndices (rows cols : ℕ) : List (ℕ × ℕ) :=
  (List.range rows).flatMap fun r =>
    (if r % 2 = 0 then List.range cols else (List.range cols).reverse).map fun c => (r, c)

/-- The position-emission loop of _GridPlan.iter_grid_positions, after the counts,
offsets and steps are computed: the traversal generator gi yields (row, col)
pairs, each becoming a position at (x0 + c * dx, y0 - r * dy) named by its
zero-padded emission index. -/
def emitGridPositions (gi : ℕ → ℕ → List (ℕ × ℕ)) (rows cols : ℕ)
    (x0 y0 dx dy : ℚ) : List GridPos :=
  ((gi rows cols).enum).map fun ic =>
    { x := x0 + ic.2.2 * dx, y := y0 - ic.2.1 * dy, row := ic.2.1, col := ic.2.2,
      name := zfill4 ic.1 }

/-- GridFromEdges: absolute grid plan bounded by outer edges. -/
structure GridFromEdges where
  top : ℚ
  left : ℚ
  bottom : ℚ
  right : ℚ
  overlap : ℚ × ℚ
  fov_width : Option ℚ
  fov_height : Option ℚ
deriving DecidableEq

/-- GridFromEdges._nrows. -/
def GridFromEdges.nrows (g : GridFromEdges) (dy : ℚ) : ℤ :=
  match g.fov_height with
  | none => ⌈(|g.top - g.bottom| + dy) / dy⌉
  | some fh =>
    if |g.top - g.bottom| ≤ fh then 1
    else ⌈(|g.top - g.bottom| - fh) / dy⌉ + 1

/-- GridFromEdges._ncolumns. -/
def GridFromEdges.ncolumns (g : GridFromEdges) (dx : ℚ) : ℤ :=
  match g.fov_width with
  | none => ⌈(|g.right - g.left| + dx) / dx⌉
  | some fw =>
    if |g.right - g.left| ≤ fw then 1
    else ⌈(|g.right - g.left| - fw) / dx⌉ + 1

/-- GridFromEdges._offset_x. -/
def GridFromEdges.offsetX (g : GridFromEdges) : ℚ :=
  min g.left g.right + (g.fov_width.getD 0) / 2

/-- GridFromEdges._offset_y. -/
def GridFromEdges.offsetY (g : GridFromEdges) : ℚ :=
  max g.top g.bottom - (g.fov_height.getD 0) / 2

/-- _GridPlan.iter_grid_positions on a GridFromEdges plan, with no FOV override and
the traversal generator gi standing for mode.generate_indices. -/
def GridFromEdges.iterGridPositions (g : GridFromEdges)
    (gi : ℕ → ℕ → List (ℕ × ℕ)) : List GridPos :=
  let fw := orDefault g.fov_width 1
  let fh := orDefault g.fov_height 1
  let d := stepSize g.overlap fw fh
  emitGridPositions gi (g.nrows d.2).toNat (g.ncolumns d.1).toNat
    g.offsetX g.offsetY d.1 d.2

/-- _GridPlan.num_positions on a GridFromEdges plan: raises when the FOV is unset,
otherwise rows * cols. -/
def GridFromEdges.numPositions (g : GridFromEdges) : Except String ℤ :=
  if g.fov_width = none ∨ g.fov_height = none then
    Except.error
      "Retrieving the number of positions in a GridFromEdges or GridWidthHeight plan requires the field of view size to be set."
  else
    let d := stepSize g.overlap (orDefault g.fov_width 1) (orDefault g.fov_height 1)
    Except.ok (g.nrows d.2 * g.ncolumns d.1)

/-- GridWidthHeight: relative grid plan from a minimum total width and height
(only the pieces needed here: counts and num_positions). -/
structure GridWidthHeight where
  width : ℚ
  height : ℚ
  overlap : ℚ × ℚ
  fov_width : Option ℚ
  fov_height : Option ℚ
deriving DecidableEq

/-- GridWidthHeight._nrows. -/
def GridWidthHeight.nrows (g : GridWidthHeight) (dy : ℚ) : ℤ := ⌈g.height / dy⌉

/-- GridWidthHeight._ncolumns. -/
def GridWidthHeight.ncolumns (g : GridWidthHeight) (dx : ℚ) : ℤ := ⌈g.width / dx⌉

/-- _GridPlan.num_positions on a GridWidthHeight plan: raises when the FOV is
unset, otherwise rows * cols. -/
def GridWidthHeight.numPositions (g : GridWidthHeight) : Except String ℤ :=
  if g.fov_width = none ∨ g.fov_height = none then
    Except.error
      "Retrieving the number of positions in a GridFromEdges or GridWidthHeight plan requires the field of view size to be set."
  else
    let d := stepSize g.overlap (orDefault g.fov_width 1) (orDefault g.fov_height 1)
    Except.ok (g.nrows d.2 * g.ncolumns d.1)

/-- The shapely geometry collaborator (out of scope per the spec, consumed at its
interface): an abstract shape type with the operations GridFromPolygon uses.
bounds returns (minx, miny, maxx, maxy) in shapely order; intersects models
prep(poly).intersects(box(minx, miny, maxx, maxy)). -/
structure GeometryOps (σ : Type) where
  mkPoly : List Pt → σ
  isValid : σ → Bool
  buffer : σ → ℚ → σ
  convexHull : σ → σ
  bounds : σ → ℚ × ℚ × ℚ × ℚ
  intersects : σ → ℚ × ℚ × ℚ × ℚ → Bool

/-- GridFromPolygon: absolute grid plan bounded by a polygon. -/
structure GridFromPolygon where
  polygon : List Pt
  convex_hull : Bool
  offset : Option ℚ
  overlap : ℚ × ℚ
  fov_width : Option ℚ
  fov_height : Option ℚ

/-- The derived state GridFromPolygon.model_post_init stores on the instance:
the prepared shape and the FOV-expanded bounds. -/
structure PolyState (σ : Type) where
  prepared : σ
  left : ℚ
  bottom : ℚ
  right : ℚ
  top : ℚ

/-- GridFromPolygon.model_post_init: validates the polygon, optionally buffers
and convex-hulls it, prepares it, and stores its bounding box enlarged by a
quarter FOV on each side.  Note the source computes self.fov_height / 4 and
self.fov_width / 4 directly: when either FOV field is None this raises a
TypeError during construction, modelled here as an error result. -/
def GridFromPolygon.model_post_init {σ : Type} (G : GeometryOps σ)
    (p : GridFromPolygon) : Except String (PolyState σ) :=
  let poly := G.mkPoly p.polygon
  if !(G.isValid poly) then Except.error "Invalid or self-intersecting polygon."
  else
    let poly1 := match p.offset with
      | some o => G.buffer (G.mkPoly p.polygon) o
      | none => poly
    let poly2 := if p.convex_hull then G.convexHull poly1 else poly1
    match p.fov_width, p.fov_height with
    | some fw, some fh =>
      let b := G.bounds poly2
      Except.ok { prepared := poly2, left := b.1 - fw / 4, bottom := b.2.1 - fh / 4,
                  right := b.2.2.1 + fw / 4, top := b.2.2.2 + fh / 4 }
    | _, _ =>
      Except.error "TypeError: unsupported operand type(s) for /: NoneType and int"

/-- GridFromPolygon._nrows (reads the stored expanded bounds). -/
def GridFromPolygon.nrows {σ : Type} (p : GridFromPolygon) (st : PolyState σ)
    (dy : ℚ) : ℤ :=
  match p.fov_height with
  | none => ⌈(|st.top - st.bottom| + dy) / dy⌉
  | some fh =>
    if |st.top - st.bottom| ≤ fh then 1
    else ⌈(|st.top - st.bottom| - fh) / dy⌉ + 1

/-- GridFromPolygon._ncolumns (reads the stored expanded bounds). -/
def GridFromPolygon.ncolumns {σ : Type} (p : GridFromPolygon) (st : PolyState σ)
    (dx : ℚ) : ℤ :=
  match p.fov_width with
  | none => ⌈(|st.right - st.left| + dx) / dx⌉
  | some fw =>
    if |st.right - st.left| ≤ fw then 1
    else ⌈(|st.right - st.left| - fw) / dx⌉ + 1

/-- GridFromPolygon._offset_x. -/
def GridFromPolygon.offsetX {σ : Type} (p : GridFromPolygon)
    (st : PolyState σ) : ℚ :=
  min st.left st.right + (p.fov_width.getD 0) / 2

/-- GridFromPolygon._offset_y. -/
def GridFromPolygon.offsetY {σ : Type} (p : GridFromPolygon)
    (st : PolyState σ) : ℚ :=
  max st.top st.bottom - (p.fov_height.getD 0) / 2

/-- _GridPlan.iter_grid_positions on a GridFromPolygon plan (the raster over the
expanded bounding box, before intersection filtering). -/
def GridFromPolygon.iterGridPositions {σ : Type} (p : GridFromPolygon)
    (st : PolyState σ) (gi : ℕ → ℕ → List (ℕ × ℕ)) : List GridPos :=
  let fw := orDefault p.fov_width 1
  let fh := orDefault p.fov_height 1
  let d := stepSize p.overlap fw fh
  emitGridPositions gi (p.nrows st d.2).toNat (p.ncolumns st d.1).toNat
    (p.offsetX st) (p.offsetY st) d.1 d.2

/-- The tile rectangle box(x - fw/2, y - fh/2, x + fw/2, y + fh/2) built in
GridFromPolygon._intersect_raster_with_polygon. -/
def tileBox (fw fh : ℚ) (pos : GridPos) : ℚ × ℚ × ℚ × ℚ :=
  (pos.x - fw / 2, pos.y - fh / 2, pos.x + fw / 2, pos.y + fh / 2)

/-- GridFromPolygon._intersect_raster_with_polygon: keep exactly the raster
positions whose FOV tile intersects the prepared shape.  Accessing
self.fov_width / 2 with an unset FOV would raise, modelled as an error. -/
def GridFromPolygon.intersectRaster {σ : Type} (G : GeometryOps σ)
    (p : GridFromPolygon) (st : PolyState σ)
    (gi : ℕ → ℕ → List (ℕ × ℕ)) : Except String (List GridPos) :=
  match p.fov_width, p.fov_height with
  | some fw, some fh =>
    Except.ok ((p.iterGridPositions st gi).filter fun pos =>
      G.intersects st.prepared (tileBox fw fh pos))
  | _, _ =>
    Except.error "TypeError: unsupported operand type(s) for /: NoneType and int"

/-- MIN_RANDOM_POINTS: the fixed candidate ceiling of the overlap-avoidance loop. -/
def MIN_RANDOM_POINTS : ℕ := 10000

/-- _is_a_valid_point: True when the candidate (x, y) is not within
(min_dist_x, min_dist_y) (Manhattan, per axis) of any accepted point. -/
def _is_a_valid_point (points : List Pt) (x y min_dist_x min_dist_y : ℚ) : Bool :=
  !(points.any fun p => decide (|x - p.1| < min_dist_x ∧ |y - p.2| < min_dist_y))

/-- The inner candidate loop of RandomPoints.__iter__: append each valid
candidate, breaking out once num_points is reached. -/
def acceptCandidates (num_points : ℕ) (fw fh : ℚ) :
    List Pt → List Pt → List Pt
  | points, [] => points
  | points, c :: cs =>
    if _is_a_valid_point points c.1 c.2 fw fh then
      let points1 := points ++ [c]
      if num_points ≤ points1.length then points1
      else acceptCandidates num_points fw fh points1 cs
    else acceptCandidates num_points fw fh points cs

/-- The while-loop of RandomPoints.__iter__ on the overlap-avoidance path.
gen i is the i-th candidate point produced by the shape-sampler stream, tries
counts the candidates drawn so far, and fuel bounds the number of rounds (the
source loop needs no fuel; that any fuel of at least MIN_RANDOM_POINTS yields
the fixpoint is proved for claim C5).  Returns the accepted points and the
final value of tries. -/
def randLoop (gen : ℕ → Pt) (per_iter num_points : ℕ) (fw fh : ℚ) :
    ℕ → ℕ → List Pt → List Pt × ℕ
  | 0, tries, points => (points, tries)
  | fuel + 1, tries, points =>
    if tries < MIN_RANDOM_POINTS ∧ points.length < num_points then
      let candidates := (List.range per_iter).map fun i => gen (tries + i)
      randLoop gen per_iter num_points fw fh fuel (tries + per_iter)
        (acceptCandidates num_points fw fh points candidates)
    else (points, tries)

/-- RandomPoints.__iter__, parameterised by the sampler stream gen (the shape
sampler applied to the RandomState seeded from random_seed) and the optional
point-reordering strategy orderFn (the external TraversalOrder collaborator,
taking the points and the start index).  Returns the emitted positions and
whether the shortfall warning fired. -/
def RandomPoints.run (gen : ℕ → Pt) (orderFn : Option (List Pt → ℕ → List Pt))
    (num_points : ℕ) (fov_width fov_height : Option ℚ) (allow_overlap : Bool)
    (start_at : Pt ⊕ ℕ) : List RPos × Bool :=
  let init : List Pt × ℕ × ℕ :=
    match start_at with
    | Sum.inl sp => ([sp], num_points - 1, 0)
    | Sum.inr i => ([], num_points, i)
  let points0 := init.1
  let needed := init.2.1
  let startIdx := init.2.2
  let res : List Pt × Bool :=
    match allow_overlap, fov_width, fov_height with
    | false, some fw, some fh =>
      let r := randLoop gen needed num_points fw fh MIN_RANDOM_POINTS 0 points0
      (r.1, decide (r.1.length < num_points))
    | _, _, _ => (points0 ++ (List.range needed).map gen, false)
  let pts := match orderFn with
    | none => res.1
    | some f => f res.1 startIdx
  ((pts.enum).map fun ip =>
    { x := ip.2.1, y := ip.2.2, name := zfill4 ip.1 }, res.2)

/-- RandomPoints._validate_startat for an integer start_at: construction
succeeds, returning the effective start index together with whether the
clamping warning fired. -/
def _validate_startat (start_at num_points : ℕ) : ℕ × Bool :=
  if start_at > num_points - 1 then (num_points - 1, true) else (start_at, false)

/-- _random_points_in_ellipse.  u is the RandomState's uniform 0..1 stream;
point i consumes u (3i) (x radius fraction), u (3i+1) (y radius fraction) and
u (3i+2) (angle fraction); cosA t and sinA t stand for numpy's
cos (2 * pi * t) and sin (2 * pi * t). -/
def _random_points_in_ellipse (cosA sinA : ℚ → ℚ) (u : ℕ → ℚ) (n_points : ℕ)
    (max_width max_height : ℚ) : List Pt :=
  (List.range n_points).map fun i =>
    (u (3 * i) * (max_width / 2 * cosA (u (3 * i + 2))),
     u (3 * i + 1) * (max_height / 2 * sinA (u (3 * i + 2))))

/-- _random_points_in_rectangle.  Point i consumes u (2i) and u (2i+1). -/
def _random_points_in_rectangle (u : ℕ → ℚ) (n_points : ℕ)
    (max_width max_height : ℚ) : List Pt :=
  (List.range n_points).map fun i =>
    (u (2 * i) * max_width - max_width / 2,
     u (2 * i + 1) * max_height - max_height / 2)

/-- Follows the claim's words for the ellipse sampler (claim C8), for comparison
with _random_points_in_ellipse: one single radius fraction r and one angle
fraction t give the point (r * (w/2) * cos, r * (h/2) * sin). -/
def ellipseSpecPoint (cosA sinA : ℚ → ℚ) (r t max_width max_height : ℚ) : Pt :=
  (r * (max_width / 2) * cosA t, r * (max_height / 2) * sinA t)

/- ------------------------------ helper lemmas ------------------------------ -/

lemma ceil_div_antitone (a d d' : ℚ) (ha : 0 ≤ a) (h0 : 0 < d') (h1 : d' ≤ d) :
    ⌈a / d⌉ ≤ ⌈a / d'⌉ := by
  apply Int.ceil_le_ceil
  rw [div_le_div_iff₀ (h0.trans_le h1) h0]
  exact mul_le_mul_of_nonneg_left h1 ha

lemma ceil_fallback_antitone (s d d' : ℚ) (hs : 0 ≤ s) (h0 : 0 < d') (h1 : d' ≤ d) :
    ⌈(s + d) / d⌉ ≤ ⌈(s + d') / d'⌉ := by
  have hd : (0:ℚ) < d := h0.trans_le h1
  have e1 : (s + d) / d = s / d + 1 := by field_simp
  have e2 : (s + d') / d' = s / d' + 1 := by field_simp
  rw [e1, e2, Int.ceil_add_one, Int.ceil_add_one]
  exact add_le_add_right (ceil_div_antitone s d d' hs h0 h1) 1

/- ------------------------------ C2 ------------------------------ -/

/-- C2: for an edge-bounded grid plan, with span the absolute difference of the
opposite edges and step d from the overlap formula: when the FOV dimension is
unset, the row (resp. column) count is ceil((span + d) / d); when it is set and
span ≤ fov, the count is 1; otherwise it is ceil((span − fov) / d) + 1.  In all
cases the count does not decrease when the step shrinks (0 < d' ≤ d). -/
theorem claim2_edge_counts (g : GridFromEdges) (d d' : ℚ)
    (h0 : 0 < d') (h1 : d' ≤ d) :
    (g.fov_height = none → g.nrows d = ⌈(|g.top - g.bottom| + d) / d⌉) ∧
    (∀ fh, g.fov_height = some fh →
      (|g.top - g.bottom| ≤ fh → g.nrows d = 1) ∧
      (fh < |g.top - g.bottom| →
        g.nrows d = ⌈(|g.top - g.bottom| - fh) / d⌉ + 1)) ∧
    g.nrows d ≤ g.nrows d' ∧
    (g.fov_width = none → g.ncolumns d = ⌈(|g.right - g.left| + d) / d⌉) ∧
    (∀ fw, g.fov_width = some fw →
      (|g.right - g.left| ≤ fw → g.ncolumns d = 1) ∧
      (fw < |g.right - g.left| →
        g.ncolumns d = ⌈(|g.right - g.left| - fw) / d⌉ + 1)) ∧
    g.ncolumns d ≤ g.ncolumns d' := by
  refine ⟨fun h => by simp [GridFromEdges.nrows, h],
    fun fh h => ⟨fun hle => by simp [GridFromEdges.nrows, h, hle],
      fun hlt => by simp [GridFromEdges.nrows, h, not_le.mpr hlt]⟩,
    ?_,
    fun h => by simp [GridFromEdges.ncolumns, h],
    fun fw h => ⟨fun hle => by simp [GridFromEdges.ncolumns, h, hle],
      fun hlt => by simp [GridFromEdges.ncolumns, h, not_le.mpr hlt]⟩,
    ?_⟩
  · rcases hfh : g.fov_height with _ | fh
    · simp only [GridFromEdges.nrows, hfh]
      exact ceil_fallback_antitone _ d d' (abs_nonneg _) h0 h1
    · simp only [GridFromEdges.nrows, hfh]
      by_cases hs : |g.top - g.bottom| ≤ fh
      · simp [hs]
      · simp only [hs, if_false]
        exact add_le_add_right
          (ceil_div_antitone _ d d' (sub_nonneg.mpr (not_le.mp hs).le) h0 h1) 1
  · rcases hfw : g.fov_width with _ | fw
    · simp only [GridFromEdges.ncolumns, hfw]
      exact ceil_fallback_antitone _ d d' (abs_nonneg _) h0 h1
    · simp only [GridFromEdges.ncolumns, hfw]
      by_cases hs : |g.right - g.left| ≤ fw
      · simp [hs]
      · simp only [hs, if_false]
        exact add_le_add_right
          (ceil_div_antitone _ d d' (sub_nonneg.mpr (not_le.mp hs).le) h0 h1) 1

/-- The edge-bounded plan of the spec scenario used by claims C2 and C3:
top = 100, left = 0, bottom = 0, right = 100, fov 50 x 50, overlap 0. -/
def gridC3 : GridFromEdges :=
  { top := 100, left := 0, bottom := 0, right := 100, overlap := (0, 0),
    fov_width := some 50, fov_height := some 50 }

/-- Witness for C2 at the concrete plan gridC3 with steps 50 and 25. -/
theorem claim2_edge_counts_witness :
    (0 < (25:ℚ) ∧ (25:ℚ) ≤ 50) ∧
    ((gridC3.fov_height = none →
        gridC3.nrows 50 = ⌈(|gridC3.top - gridC3.bottom| + 50) / 50⌉) ∧
     (∀ fh, gridC3.fov_height = some fh →
       (|gridC3.top - gridC3.bottom| ≤ fh → gridC3.nrows 50 = 1) ∧
       (fh < |gridC3.top - gridC3.bottom| →
         gridC3.nrows 50 = ⌈(|gridC3.top - gridC3.bottom| - fh) / 50⌉ + 1)) ∧
     gridC3.nrows 50 ≤ gridC3.nrows 25 ∧
     (gridC3.fov_width = none →
        gridC3.ncolumns 50 = ⌈(|gridC3.right - gridC3.left| + 50) / 50⌉) ∧
     (∀ fw, gridC3.fov_width = some fw →
       (|gridC3.right - gridC3.left| ≤ fw → gridC3.ncolumns 50 = 1) ∧
       (fw < |gridC3.right - gridC3.left| →
         gridC3.ncolumns 50 = ⌈(|gridC3.right - gridC3.left| - fw) / 50⌉ + 1)) ∧
     gridC3.ncolumns 50 ≤ gridC3.ncolumns 25) :=
  ⟨⟨by norm_num, by norm_num⟩,
   claim2_edge_counts gridC3 50 25 (by norm_num) (by norm_num)⟩

/- ------------------------------ C3 ------------------------------ -/

/-- C3: the edge-bounded plan with top = 100, left = 0, bottom = 0, right = 100,
fov 50 x 50, overlap 0 and the default row-wise-snake mode yields exactly the
four positions (25,75), (75,75), (75,25), (25,25), with row/col indices
(0,0), (0,1), (1,1), (1,0) and names 0000 to 0003.  The row-wise-snake index
generator lives outside the provided source and is modelled from the spec
(rowWiseSnakeIndices). -/
theorem claim3_scenario_edges :
    gridC3.iterGridPositions rowWiseSnakeIndices =
      [{ x := 25, y := 75, row := 0, col := 0, name := "0000" },
       { x := 75, y := 75, row := 0, col := 1, name := "0001" },
       { x := 75, y := 25, row := 1, col := 1, name := "0002" },
       { x := 25, y := 25, row := 1, col := 0, name := "0003" }] := by
  have hstep : stepSize gridC3.overlap (orDefault gridC3.fov_width 1)
      (orDefault gridC3.fov_height 1) = (50, 50) := by
    norm_num [stepSize, orDefault, gridC3]
  have hr : gridC3.nrows 50 = 2 := by
    norm_num [GridFromEdges.nrows, gridC3]
  have hc : gridC3.ncolumns 50 = 2 := by
    norm_num [GridFromEdges.ncolumns, gridC3]
  have hox : gridC3.offsetX = 25 := by
    norm_num [GridFromEdges.offsetX, gridC3]
  have hoy : gridC3.offsetY = 75 := by
    norm_num [GridFromEdges.offsetY, gridC3]
  rw [GridFromEdges.iterGridPositions, hstep, hr, hc, hox, hoy]
  have henum : ((rowWiseSnakeIndices (Int.toNat 2) (Int.toNat 2)).enum)
      = [(0,(0,0)),(1,(0,1)),(2,(1,1)),(3,(1,0))] := by decide
  simp only [emitGridPositions, henum, List.map_cons, List.map_nil, List.cons.injEq]
  norm_num [GridPos.mk.injEq]
  all_goals decide

/- ------------------------------ C9 ------------------------------ -/

/-- C9: for an integer start_at, RandomPoints construction succeeds
(_validate_startat returns a result rather than failing); when
start_at ≥ num_points the result is clamped to num_points − 1 and the warning
fires, and when start_at < num_points it is returned unchanged with no
warning. -/
theorem claim9_startat_clamped (start_at num_points : ℕ) (h : 1 ≤ num_points) :
    (num_points ≤ start_at →
      _validate_startat start_at num_points = (num_points - 1, true)) ∧
    (start_at < num_points →
      _validate_startat start_at num_points = (start_at, false)) := by
  unfold _validate_startat
  constructor
  · intro hge
    have : start_at > num_points - 1 := by omega
    simp [this]
  · intro hlt
    have : ¬ (start_at > num_points - 1) := by omega
    simp [this]

/-- Witness for C9 at start_at = 10, num_points = 5: the effective start index
is clamped to 4 with a warning. -/
theorem claim9_startat_clamped_witness :
    1 ≤ 5 ∧
    ((5 ≤ 10 → _validate_startat 10 5 = (5 - 1, true)) ∧
     (10 < 5 → _validate_startat 10 5 = (10, false))) :=
  ⟨by norm_num, claim9_startat_clamped 10 5 (by norm_num)⟩

/- ------------------------------ C4 ------------------------------ -/

/-- Concrete geometry collaborator on raw vertex lists, used to evaluate the
polygon plan at concrete inputs: validity only checks the vertex count, buffer
and hull are identities, and bounds is the exact vertex min/max (which is
shapely's bounding box for an unbuffered, unhulled polygon). -/
def listGeom : GeometryOps (List Pt) where
  mkPoly := id
  isValid := fun p => decide (3 ≤ p.length)
  buffer := fun p _ => p
  convexHull := fun p => p
  bounds := fun p =>
    match p with
    | [] => (0, 0, 0, 0)
    | q :: qs =>
      qs.foldl (fun acc r =>
        (min acc.1 r.1, min acc.2.1 r.2, max acc.2.2.1 r.1, max acc.2.2.2 r.2))
        (q.1, q.2, q.1, q.2)
  intersects := fun _ _ => true

/-- A polygon plan (right triangle) with no FOV set. -/
def polyPlanNoFov : GridFromPolygon :=
  { polygon := [(0, 0), (10, 0), (0, 10)], convex_hull := false, offset := none,
    overlap := (0, 0), fov_width := none, fov_height := none }

/-- The same polygon plan with FOV 8 x 8. -/
def polyPlanFov : GridFromPolygon :=
  { polygon := [(0, 0), (10, 0), (0, 10)], convex_hull := false, offset := none,
    overlap := (0, 0), fov_width := some 8, fov_height := some 8 }

/-- An edge-bounded plan with no FOV set. -/
def edgesNoFov : GridFromEdges :=
  { top := 100, left := 0, bottom := 0, right := 100, overlap := (0, 0),
    fov_width := none, fov_height := none }

/-- A width-height plan with no FOV set. -/
def whNoFov : GridWidthHeight :=
  { width := 10, height := 10, overlap := (0, 0), fov_width := none,
    fov_height := none }

/-- C4: laziness of the FOV error holds for the edge-bounded and width-height
variants (construction succeeds, num_positions raises the input-validation
error), but NOT for the polygon-bounded variant: its model_post_init evaluates
fov_height / 4 during construction, so an unset FOV raises a TypeError at
construction time and the ValueError guard inside GridFromPolygon.num_positions
is unreachable — the same plan with FOV set constructs fine. -/
theorem claim4_fov_error_divergence :
    GridFromPolygon.model_post_init listGeom polyPlanNoFov =
      Except.error "TypeError: unsupported operand type(s) for /: NoneType and int" ∧
    (∃ st, GridFromPolygon.model_post_init listGeom polyPlanFov = Except.ok st) ∧
    GridFromEdges.numPositions edgesNoFov =
      Except.error "Retrieving the number of positions in a GridFromEdges or GridWidthHeight plan requires the field of view size to be set." ∧
    GridWidthHeight.numPositions whNoFov =
      Except.error "Retrieving the number of positions in a GridFromEdges or GridWidthHeight plan requires the field of view size to be set." :=
  ⟨rfl, ⟨_, rfl⟩, rfl, rfl⟩

/- ------------------------------ C6 ------------------------------ -/

/-- C6: for a polygon-bounded plan with FOV set whose construction produced the
expanded-bounds state st, the yielded positions are exactly the filter of the
edge-bounded grid over those bounds by the tile-intersects-polygon test; hence
they form a subsequence (sublist) of that grid, every yielded position's FOV
rectangle intersects the prepared shape, and a position whose rectangle does
not intersect is never yielded. -/
theorem claim6_polygon_filter {σ : Type} (G : GeometryOps σ) (p : GridFromPolygon)
    (st : PolyState σ) (gi : ℕ → ℕ → List (ℕ × ℕ)) (fw fh : ℚ)
    (hw : p.fov_width = some fw) (hh : p.fov_height = some fh)
    (hpost : GridFromPolygon.model_post_init G p = Except.ok st) :
    GridFromPolygon.intersectRaster G p st gi = Except.ok
      ((GridFromEdges.iterGridPositions
          { top := st.top, left := st.left, bottom := st.bottom, right := st.right,
            overlap := p.overlap, fov_width := p.fov_width,
            fov_height := p.fov_height } gi).filter
        fun pos => G.intersects st.prepared (tileBox fw fh pos)) ∧
    List.Sublist
      ((GridFromEdges.iterGridPositions
          { top := st.top, left := st.left, bottom := st.bottom, right := st.right,
            overlap := p.overlap, fov_width := p.fov_width,
            fov_height := p.fov_height } gi).filter
        fun pos => G.intersects st.prepared (tileBox fw fh pos))
      (GridFromEdges.iterGridPositions
          { top := st.top, left := st.left, bottom := st.bottom, right := st.right,
            overlap := p.overlap, fov_width := p.fov_width,
            fov_height := p.fov_height } gi) ∧
    (∀ pos ∈ (GridFromEdges.iterGridPositions
          { top := st.top, left := st.left, bottom := st.bottom, right := st.right,
            overlap := p.overlap, fov_width := p.fov_width,
            fov_height := p.fov_height } gi).filter
        (fun pos => G.intersects st.prepared (tileBox fw fh pos)),
      G.intersects st.prepared (tileBox fw fh pos) = true) ∧
    (∀ pos, G.intersects st.prepared (tileBox fw fh pos) = false →
      pos ∉ (GridFromEdges.iterGridPositions
          { top := st.top, left := st.left, bottom := st.bottom, right := st.right,
            overlap := p.overlap, fov_width := p.fov_width,
            fov_height := p.fov_height } gi).filter
        fun pos => G.intersects st.prepared (tileBox fw fh pos)) := by
  have hiter : p.iterGridPositions st gi = GridFromEdges.iterGridPositions
      { top := st.top, left := st.left, bottom := st.bottom, right := st.right,
        overlap := p.overlap, fov_width := p.fov_width,
        fov_height := p.fov_height } gi := rfl
  refine ⟨?_, List.filter_sublist _, ?_, ?_⟩
  · simp only [GridFromPolygon.intersectRaster, hw, hh, hiter]
  · intro pos hmem
    exact (List.mem_filter.mp hmem).2
  · intro pos hfalse hmem
    have := (List.mem_filter.mp hmem).2
    rw [hfalse] at this
    exact Bool.false_ne_true this

/-- The expanded-bounds state produced by constructing polyPlanFov with the
concrete listGeom geometry: bounds (0, 0, 10, 10) grown by a quarter FOV (2). -/
def polyStC6 : PolyState (List Pt) :=
  { prepared := [(0, 0), (10, 0), (0, 10)], left := -2, bottom := -2,
    right := 12, top := 12 }

/-- Witness for C6 at the concrete polygon plan polyPlanFov with geometry
listGeom, state polyStC6 and row-wise-snake traversal. -/
theorem claim6_polygon_filter_witness :
    (polyPlanFov.fov_width = some 8 ∧ polyPlanFov.fov_height = some 8 ∧
     GridFromPolygon.model_post_init listGeom polyPlanFov = Except.ok polyStC6) ∧
    (GridFromPolygon.intersectRaster listGeom polyPlanFov polyStC6 rowWiseSnakeIndices =
      Except.ok
      ((GridFromEdges.iterGridPositions
          { top := polyStC6.top, left := polyStC6.left, bottom := polyStC6.bottom,
            right := polyStC6.right, overlap := polyPlanFov.overlap,
            fov_width := polyPlanFov.fov_width,
            fov_height := polyPlanFov.fov_height } rowWiseSnakeIndices).filter
        fun pos => listGeom.intersects polyStC6.prepared (tileBox 8 8 pos)) ∧
    List.Sublist
      ((GridFromEdges.iterGridPositions
          { top := polyStC6.top, left := polyStC6.left, bottom := polyStC6.bottom,
            right := polyStC6.right, overlap := polyPlanFov.overlap,
            fov_width := polyPlanFov.fov_width,
            fov_height := polyPlanFov.fov_height } rowWiseSnakeIndices).filter
        fun pos => listGeom.intersects polyStC6.prepared (tileBox 8 8 pos))
      (GridFromEdges.iterGridPositions
          { top := polyStC6.top, left := polyStC6.left, bottom := polyStC6.bottom,
            right := polyStC6.right, overlap := polyPlanFov.overlap,
            fov_width := polyPlanFov.fov_width,
            fov_height := polyPlanFov.fov_height } rowWiseSnakeIndices) ∧
    (∀ pos ∈ (GridFromEdges.iterGridPositions
          { top := polyStC6.top, left := polyStC6.left, bottom := polyStC6.bottom,
            right := polyStC6.right, overlap := polyPlanFov.overlap,
            fov_width := polyPlanFov.fov_width,
            fov_height := polyPlanFov.fov_height } rowWiseSnakeIndices).filter
        (fun pos => listGeom.intersects polyStC6.prepared (tileBox 8 8 pos)),
      listGeom.intersects polyStC6.prepared (tileBox 8 8 pos) = true) ∧
    (∀ pos, listGeom.intersects polyStC6.prepared (tileBox 8 8 pos) = false →
      pos ∉ (GridFromEdges.iterGridPositions
          { top := polyStC6.top, left := polyStC6.left, bottom := polyStC6.bottom,
            right := polyStC6.right, overlap := polyPlanFov.overlap,
            fov_width := polyPlanFov.fov_width,
            fov_height := polyPlanFov.fov_height } rowWiseSnakeIndices).filter
        fun pos => listGeom.intersects polyStC6.prepared (tileBox 8 8 pos))) :=
  ⟨⟨rfl, rfl, by
      simp only [GridFromPolygon.model_post_init, listGeom, polyPlanFov, polyStC6,
        List.foldl]
      norm_num [PolyState.mk.injEq, min_def, max_def]⟩,
   claim6_polygon_filter listGeom polyPlanFov polyStC6 rowWiseSnakeIndices 8 8 rfl rfl
     (by
      simp only [GridFromPolygon.model_post_init, listGeom, polyPlanFov, polyStC6,
        List.foldl]
      norm_num [PolyState.mk.injEq, min_def, max_def])⟩

/- ------------------------------ C7 ------------------------------ -/

/-- C7: iteration of a RandomPoints plan is a pure function of the plan and of
the sampler stream derived from the seed, so two runs with the same seed give
identical position sequences (same coordinates, order and names), whatever the
ordering strategy; and the scenario plan (num_points = 5, allow_overlap = true,
order = None) emits exactly 5 positions for every sampler stream. -/
theorem claim7_seed_reproducible :
    (∀ (rngOf : ℤ → ℕ → Pt) (orderFn : Option (List Pt → ℕ → List Pt))
       (num_points : ℕ) (fov_w fov_h : Option ℚ) (allow_overlap : Bool)
       (start_at : Pt ⊕ ℕ) (seed : ℤ),
       RandomPoints.run (rngOf seed) orderFn num_points fov_w fov_h allow_overlap
           start_at =
         RandomPoints.run (rngOf seed) orderFn num_points fov_w fov_h allow_overlap
           start_at) ∧
    (∀ gen : ℕ → Pt,
       ((RandomPoints.run gen none 5 none none true (Sum.inr 0)).1).length = 5) := by
  refine ⟨fun _ _ _ _ _ _ _ _ => rfl, fun gen => ?_⟩
  simp [RandomPoints.run]

/- ------------------------------ C1 ------------------------------ -/

lemma acceptCandidates_cons (num : ℕ) (fw fh : ℚ) (pts : List Pt) (c : Pt)
    (cs : List Pt) :
    acceptCandidates num fw fh pts (c :: cs) =
      if _is_a_valid_point pts c.1 c.2 fw fh then
        (if num ≤ (pts ++ [c]).length then pts ++ [c]
         else acceptCandidates num fw fh (pts ++ [c]) cs)
      else acceptCandidates num fw fh pts cs := rfl

lemma randLoop_succ (gen : ℕ → Pt) (per num : ℕ) (fw fh : ℚ) (fuel tries : ℕ)
    (pts : List Pt) :
    randLoop gen per num fw fh (fuel + 1) tries pts =
      if tries < MIN_RANDOM_POINTS ∧ pts.length < num then
        randLoop gen per num fw fh fuel (tries + per)
          (acceptCandidates num fw fh pts ((List.range per).map fun i => gen (tries + i)))
      else (pts, tries) := rfl

lemma valid_point_sep (pts : List Pt) (x y fw fh : ℚ)
    (h : _is_a_valid_point pts x y fw fh = true) :
    ∀ p ∈ pts, fw ≤ |x - p.1| ∨ fh ≤ |y - p.2| := by
  intro p hp
  simp only [_is_a_valid_point, Bool.not_eq_true', List.any_eq_false,
    decide_eq_true_eq] at h
  have h2 := h p hp
  rw [not_and_or, not_lt, not_lt] at h2
  exact h2

lemma acceptCandidates_pairwise (num : ℕ) (fw fh : ℚ) (cs : List Pt) :
    ∀ pts : List Pt,
      pts.Pairwise (fun p q => fw ≤ |p.1 - q.1| ∨ fh ≤ |p.2 - q.2|) →
      (acceptCandidates num fw fh pts cs).Pairwise
        (fun p q => fw ≤ |p.1 - q.1| ∨ fh ≤ |p.2 - q.2|) := by
  induction cs with
  | nil => intro pts h; simpa [acceptCandidates] using h
  | cons c cs ih =>
    intro pts h
    rw [acceptCandidates_cons]
    by_cases hv : _is_a_valid_point pts c.1 c.2 fw fh = true
    · have hpair : (pts ++ [c]).Pairwise
          (fun p q => fw ≤ |p.1 - q.1| ∨ fh ≤ |p.2 - q.2|) := by
        rw [List.pairwise_append]
        refine ⟨h, List.pairwise_singleton _ _, ?_⟩
        intro p hp c2 hc2
        rw [List.mem_singleton] at hc2
        rcases valid_point_sep pts c.1 c.2 fw fh hv p hp with h1 | h1
        · exact Or.inl (by rw [hc2, abs_sub_comm]; exact h1)
        · exact Or.inr (by rw [hc2, abs_sub_comm]; exact h1)
      rw [if_pos hv]
      by_cases hlen : num ≤ (pts ++ [c]).length
      · rw [if_pos hlen]; exact hpair
      · rw [if_neg hlen]; exact ih _ hpair
    · rw [if_neg hv]; exact ih _ h

lemma randLoop_pairwise (gen : ℕ → Pt) (per num : ℕ) (fw fh : ℚ) (fuel : ℕ) :
    ∀ (tries : ℕ) (pts : List Pt),
      pts.Pairwise (fun p q => fw ≤ |p.1 - q.1| ∨ fh ≤ |p.2 - q.2|) →
      ((randLoop gen per num fw fh fuel tries pts).1).Pairwise
        (fun p q => fw ≤ |p.1 - q.1| ∨ fh ≤ |p.2 - q.2|) := by
  induction fuel with
  | zero => intro tries pts h; simpa [randLoop] using h
  | succ fuel ih =>
    intro tries pts h
    rw [randLoop_succ]
    by_cases hc : tries < MIN_RANDOM_POINTS ∧ pts.length < num
    · rw [if_pos hc]
      exact ih _ _ (acceptCandidates_pairwise num fw fh _ pts h)
    · rw [if_neg hc]; exact h

/-- C1 (amended): on the overlap-avoidance path, any two distinct points of the
accepted-points list built by the candidate loop (before any reordering) are
separated by at least fov_width in x OR at least fov_height in y, provided the
initial list already satisfies that pairwise separation (it is empty, or the
single seeded start position).  The claim's AND-separation is refuted by
claim1_counterexample: _is_a_valid_point only rejects a candidate that is close
in BOTH axes. -/
theorem claim1_separation_or (gen : ℕ → Pt) (per num fuel tries : ℕ) (fw fh : ℚ)
    (pts : List Pt)
    (h : pts.Pairwise fun p q => fw ≤ |p.1 - q.1| ∨ fh ≤ |p.2 - q.2|) :
    ∀ p ∈ (randLoop gen per num fw fh fuel tries pts).1,
      ∀ q ∈ (randLoop gen per num fw fh fuel tries pts).1,
        p ≠ q → fw ≤ |p.1 - q.1| ∨ fh ≤ |p.2 - q.2| := by
  have hsymm : Symmetric (fun p q : Pt => fw ≤ |p.1 - q.1| ∨ fh ≤ |p.2 - q.2|) := by
    intro a b hab
    rcases hab with h1 | h1
    · exact Or.inl (by rwa [abs_sub_comm])
    · exact Or.inr (by rwa [abs_sub_comm])
  have hp := randLoop_pairwise gen per num fw fh fuel tries pts h
  exact fun p hp' q hq' hne => List.Pairwise.forall hsymm hp hp' hq' hne

/-- Candidate stream for the C1 counterexample: (0,0) then (5,0) forever. -/
def genC1 : ℕ → Pt := fun n => if n = 0 then (0, 0) else (5, 0)

/-- C1 counterexample: with fov_width = 1 and fov_height = 10 the loop accepts
(0,0) and then (5,0) (far enough in x), yet their y distance is 0 < fov_height,
so the claimed AND-separation fails for the accepted list. -/
theorem claim1_counterexample :
    (randLoop genC1 2 2 1 10 MIN_RANDOM_POINTS 0 []).1 = [(0, 0), (5, 0)] ∧
    ¬ (∀ p ∈ (randLoop genC1 2 2 1 10 MIN_RANDOM_POINTS 0 []).1,
        ∀ q ∈ (randLoop genC1 2 2 1 10 MIN_RANDOM_POINTS 0 []).1,
          p ≠ q → ((1:ℚ) ≤ |p.1 - q.1| ∧ (10:ℚ) ≤ |p.2 - q.2|)) := by
  have hcand : ((List.range 2).map fun i => genC1 (0 + i)) = [(0, 0), (5, 0)] := by
    norm_num [genC1, List.range_succ]
  have hacc : acceptCandidates 2 1 10 [] [((0:ℚ), (0:ℚ)), (5, 0)] = [(0, 0), (5, 0)] := by
    norm_num [acceptCandidates_cons, _is_a_valid_point]
  have heval : (randLoop genC1 2 2 1 10 MIN_RANDOM_POINTS 0 []).1 = [(0, 0), (5, 0)] := by
    rw [show MIN_RANDOM_POINTS = 9999 + 1 from rfl, randLoop_succ,
      if_pos (by norm_num [MIN_RANDOM_POINTS]), hcand, hacc,
      show (9999:ℕ) = 9998 + 1 from rfl, randLoop_succ,
      if_neg (by norm_num [MIN_RANDOM_POINTS])]
  refine ⟨heval, ?_⟩
  rw [heval]
  intro h
  have h2 := h (0, 0) (by norm_num) (5, 0) (by norm_num) (by norm_num [Prod.ext_iff])
  have h3 := h2.2
  norm_num at h3

/-- Witness for C1 (amended) at the concrete stream genC1 with an empty initial
list. -/
theorem claim1_separation_or_witness :
    List.Pairwise (fun p q : Pt => (1:ℚ) ≤ |p.1 - q.1| ∨ (10:ℚ) ≤ |p.2 - q.2|)
      ([] : List Pt) ∧
    (∀ p ∈ (randLoop genC1 2 2 1 10 1 0 ([] : List Pt)).1,
      ∀ q ∈ (randLoop genC1 2 2 1 10 1 0 ([] : List Pt)).1,
        p ≠ q → (1:ℚ) ≤ |p.1 - q.1| ∨ (10:ℚ) ≤ |p.2 - q.2|) :=
  ⟨List.Pairwise.nil, claim1_separation_or genC1 2 2 1 0 1 10 [] List.Pairwise.nil⟩

/- ------------------------------ C5 ------------------------------ -/

lemma randLoop_tries_bound (gen : ℕ → Pt) (per num : ℕ) (fw fh : ℚ) (fuel : ℕ) :
    ∀ (tries : ℕ) (pts : List Pt), tries < MIN_RANDOM_POINTS + per →
      (randLoop gen per num fw fh fuel tries pts).2 < MIN_RANDOM_POINTS + per := by
  induction fuel with
  | zero => intro tries pts h; simpa [randLoop] using h
  | succ fuel ih =>
    intro tries pts h
    rw [randLoop_succ]
    by_cases hc : tries < MIN_RANDOM_POINTS ∧ pts.length < num
    · rw [if_pos hc]
      exact ih _ _ (by omega)
    · rw [if_neg hc]; exact h

lemma randLoop_fuel_stable (gen : ℕ → Pt) (per num : ℕ) (fw fh : ℚ)
    (hper : 1 ≤ per) (fuel : ℕ) :
    ∀ (tries : ℕ) (pts : List Pt), MIN_RANDOM_POINTS - tries ≤ fuel →
      randLoop gen per num fw fh (fuel + 1) tries pts =
        randLoop gen per num fw fh fuel tries pts := by
  induction fuel with
  | zero =>
    intro tries pts hle
    rw [randLoop_succ]
    rw [if_neg (by omega)]
    rfl
  | succ fuel ih =>
    intro tries pts hle
    by_cases hc : tries < MIN_RANDOM_POINTS ∧ pts.length < num
    · rw [randLoop_succ, if_pos hc, ih _ _ (by omega), randLoop_succ, if_pos hc]
    · rw [randLoop_succ, if_neg hc, randLoop_succ, if_neg hc]

lemma randLoop_fuel_ge (gen : ℕ → Pt) (per num : ℕ) (fw fh : ℚ)
    (hper : 1 ≤ per) (k : ℕ) (pts : List Pt) :
    randLoop gen per num fw fh (MIN_RANDOM_POINTS + k) 0 pts =
      randLoop gen per num fw fh MIN_RANDOM_POINTS 0 pts := by
  induction k with
  | zero => rfl
  | succ k ih =>
    rw [show MIN_RANDOM_POINTS + (k + 1) = (MIN_RANDOM_POINTS + k) + 1 from rfl,
      randLoop_fuel_stable gen per num fw fh hper _ _ _ (by omega), ih]

/-- C5 (amended): the overlap-avoidance loop always terminates (any fuel beyond
MIN_RANDOM_POINTS rounds gives the same result, and the source loop performs at
most that many rounds since each round adds per_iter ≥ 1 to tries); the total
number of candidates drawn is less than MIN_RANDOM_POINTS + per_iter — not at
most MIN_RANDOM_POINTS as claimed, see claim5_counterexample — and on shortfall
the iteration sets the non-fatal warning flag instead of raising. -/
theorem claim5_loop_bounds (gen : ℕ → Pt) (per num : ℕ) (fw fh : ℚ)
    (hper : 1 ≤ per) (k : ℕ) :
    randLoop gen per num fw fh (MIN_RANDOM_POINTS + k) 0 [] =
      randLoop gen per num fw fh MIN_RANDOM_POINTS 0 [] ∧
    (randLoop gen per num fw fh MIN_RANDOM_POINTS 0 []).2 <
      MIN_RANDOM_POINTS + per ∧
    ((RandomPoints.run gen none num (some fw) (some fh) false (Sum.inr 0)).2 = true ↔
      ((RandomPoints.run gen none num (some fw) (some fh) false (Sum.inr 0)).1).length
        < num) := by
  refine ⟨randLoop_fuel_ge gen per num fw fh hper k [],
    randLoop_tries_bound gen per num fw fh MIN_RANDOM_POINTS 0 [] (by omega), ?_⟩
  simp [RandomPoints.run]

/-- Candidate stream for the C5 counterexample: always the origin. -/
def genC5 : ℕ → Pt := fun _ => (0, 0)

lemma map_range_genC5 (t n : ℕ) :
    ((List.range n).map fun i => genC5 (t + i)) = List.replicate n ((0:ℚ), (0:ℚ)) := by
  simp [genC5]

lemma acceptCandidates_invalid_replicate (num : ℕ) (fw fh : ℚ) (c : Pt) (m : ℕ) :
    ∀ pts : List Pt, _is_a_valid_point pts c.1 c.2 fw fh = false →
      acceptCandidates num fw fh pts (List.replicate m c) = pts := by
  induction m with
  | zero => intro pts h; rfl
  | succ m ih =>
    intro pts h
    rw [List.replicate_succ, acceptCandidates_cons, if_neg (by simp [h]), ih pts h]

/-- C5 counterexample: with num_points = per_iter = 9999 and fov 1 x 1 and a
stream that always returns the origin (only one point can ever be accepted),
the loop runs a second round after tries = 9999 < 10000 and so draws
19998 > 10000 candidates in total before stopping. -/
theorem claim5_counterexample :
    randLoop genC5 9999 9999 1 1 MIN_RANDOM_POINTS 0 [] = ([((0:ℚ), (0:ℚ))], 19998) ∧
    MIN_RANDOM_POINTS < 19998 := by
  have hinv : _is_a_valid_point [((0:ℚ), (0:ℚ))] 0 0 1 1 = false := by
    norm_num [_is_a_valid_point]
  have hround1 : acceptCandidates 9999 1 1 [] (List.replicate 9999 ((0:ℚ), (0:ℚ)))
      = [((0:ℚ), (0:ℚ))] := by
    rw [show (9999:ℕ) = 9998 + 1 from rfl, List.replicate_succ, acceptCandidates_cons,
      if_pos (by norm_num [_is_a_valid_point]), if_neg (by norm_num), List.nil_append]
    exact acceptCandidates_invalid_replicate 9999 1 1 ((0:ℚ), (0:ℚ)) 9998
      [((0:ℚ), (0:ℚ))] hinv
  have hround2 : acceptCandidates 9999 1 1 [((0:ℚ), (0:ℚ))]
      (List.replicate 9999 ((0:ℚ), (0:ℚ))) = [((0:ℚ), (0:ℚ))] :=
    acceptCandidates_invalid_replicate 9999 1 1 ((0:ℚ), (0:ℚ)) 9999
      [((0:ℚ), (0:ℚ))] hinv
  constructor
  · rw [show MIN_RANDOM_POINTS = 9999 + 1 from rfl, randLoop_succ,
      if_pos (by norm_num [MIN_RANDOM_POINTS]), map_range_genC5, hround1]
    rw [show (0:ℕ) + 9999 = 9999 from rfl]
    rw [show randLoop genC5 9999 9999 1 1 9999 9999 [((0:ℚ), (0:ℚ))]
        = randLoop genC5 9999 9999 1 1 (9998 + 1) 9999 [((0:ℚ), (0:ℚ))] from rfl,
      randLoop_succ, if_pos (by norm_num [MIN_RANDOM_POINTS]), map_range_genC5, hround2]
    rw [show (9999:ℕ) + 9999 = 19998 from rfl]
    rw [show randLoop genC5 9999 9999 1 1 9998 19998 [((0:ℚ), (0:ℚ))]
        = randLoop genC5 9999 9999 1 1 (9997 + 1) 19998 [((0:ℚ), (0:ℚ))] from rfl,
      randLoop_succ, if_neg (by norm_num [MIN_RANDOM_POINTS])]
  · norm_num [MIN_RANDOM_POINTS]

/-- Witness for C5 (amended) at per_iter = num_points = 1 and a constant
stream. -/
theorem claim5_loop_bounds_witness :
    1 ≤ 1 ∧
    (randLoop genC5 1 1 1 1 (MIN_RANDOM_POINTS + 3) 0 [] =
      randLoop genC5 1 1 1 1 MIN_RANDOM_POINTS 0 [] ∧
    (randLoop genC5 1 1 1 1 MIN_RANDOM_POINTS 0 []).2 < MIN_RANDOM_POINTS + 1 ∧
    ((RandomPoints.run genC5 none 1 (some 1) (some 1) false (Sum.inr 0)).2 = true ↔
      ((RandomPoints.run genC5 none 1 (some 1) (some 1) false (Sum.inr 0)).1).length
        < 1)) :=
  ⟨le_refl 1, claim5_loop_bounds genC5 1 1 1 1 (le_refl 1) 3⟩

/- ------------------------------ C8 ------------------------------ -/

/-- Uniform stream for the C8 counterexample: u0 = 1, u1 = 1/2, angle
fraction 1/2. -/
def uC8 : ℕ → ℚ := fun k => if k = 0 then 1 else 1/2

/-- Constant trig stand-ins for the C8 counterexample: (3/5, 4/5) is a genuine
cosine/sine pair (it lies on the unit circle), realised at the angle
atan (4/3). -/
def cosC8 : ℚ → ℚ := fun _ => 3/5

/-- See cosC8. -/
def sinC8 : ℚ → ℚ := fun _ => 4/5

/-- C8 counterexample: the ellipse sampler scales x by u0 = 1 and y by the
independent draw u1 = 1/2, producing (3/5, 2/5); no single radius fraction r
can reproduce that point in the claimed single-r form, which would need r = 1
for x and r = 1/2 for y. -/
theorem claim8_counterexample :
    _random_points_in_ellipse cosC8 sinC8 uC8 1 2 2 = [(3/5, 2/5)] ∧
    cosC8 (1/2) ^ 2 + sinC8 (1/2) ^ 2 = 1 ∧
    ¬ ∃ r : ℚ, ellipseSpecPoint cosC8 sinC8 r (1/2) 2 2 = (3/5, 2/5) := by
  refine ⟨?_, by norm_num [cosC8, sinC8], ?_⟩
  · norm_num [_random_points_in_ellipse, uC8, cosC8, sinC8, List.range_succ]
  · rintro ⟨r, hr⟩
    rw [ellipseSpecPoint, Prod.ext_iff] at hr
    simp only [cosC8, sinC8] at hr
    obtain ⟨h1, h2⟩ := hr
    have hr1 : r = 1 := by linarith
    rw [hr1] at h2
    norm_num at h2

/-- C8 (amended): each ellipse candidate uses THREE uniform draws — two
independent radius fractions, one per axis, and one angle fraction — giving
(u (3i) * (w/2) * cosA (u (3i+2)), u (3i+1) * (h/2) * sinA (u (3i+2))); the
claimed single-fraction form holds exactly when the two radius draws agree. -/
theorem claim8_ellipse_two_fractions (cosA sinA : ℚ → ℚ) (u : ℕ → ℚ)
    (n : ℕ) (w h : ℚ) (i : ℕ) (hi : i < n) :
    (_random_points_in_ellipse cosA sinA u n w h).get? i =
      some (u (3 * i) * (w / 2 * cosA (u (3 * i + 2))),
        u (3 * i + 1) * (h / 2 * sinA (u (3 * i + 2)))) ∧
    (u (3 * i) = u (3 * i + 1) →
      ∃ r, (u (3 * i) * (w / 2 * cosA (u (3 * i + 2))),
          u (3 * i + 1) * (h / 2 * sinA (u (3 * i + 2)))) =
        ellipseSpecPoint cosA sinA r (u (3 * i + 2)) w h) := by
  constructor
  · rw [_random_points_in_ellipse, List.get?_map, List.get?_range hi]
    rfl
  · intro he
    refine ⟨u (3 * i), ?_⟩
    rw [ellipseSpecPoint, Prod.ext_iff]
    constructor
    · ring
    · rw [← he]; ring

/-- Witness for C8 (amended) at the concrete stream uC8 with n = 1, i = 0. -/
theorem claim8_ellipse_two_fractions_witness :
    (0 < 1) ∧
    ((_random_points_in_ellipse cosC8 sinC8 uC8 1 2 2).get? 0 =
      some (uC8 (3 * 0) * (2 / 2 * cosC8 (uC8 (3 * 0 + 2))),
        uC8 (3 * 0 + 1) * (2 / 2 * sinC8 (uC8 (3 * 0 + 2)))) ∧
    (uC8 (3 * 0) = uC8 (3 * 0 + 1) →
      ∃ r, (uC8 (3 * 0) * (2 / 2 * cosC8 (uC8 (3 * 0 + 2))),
          uC8 (3 * 0 + 1) * (2 / 2 * sinC8 (uC8 (3 * 0 + 2)))) =
        ellipseSpecPoint cosC8 sinC8 r (uC8 (3 * 0 + 2)) 2 2)) :=
  ⟨Nat.zero_lt_one, claim8_ellipse_two_fractions cosC8 sinC8 uC8 1 2 2 0 Nat.zero_lt_one⟩

/- ------------------------------ C10 ------------------------------ -/

/-- C10: for any uniform stream with values in the closed interval 0..1, any
trig stand-ins satisfying the circle identity, any count and positive extents,
every candidate of the rectangle sampler lies within half the extents of the
origin on each axis, and every candidate of the ellipse sampler additionally
lies inside the axis-aligned ellipse (2x/w)^2 + (2y/h)^2 ≤ 1. -/
theorem claim10_sampler_bounds (cosA sinA : ℚ → ℚ)
    (htrig : ∀ t, cosA t ^ 2 + sinA t ^ 2 = 1)
    (u : ℕ → ℚ) (hu : ∀ k, 0 ≤ u k ∧ u k ≤ 1) (n : ℕ) (w h : ℚ)
    (hw : 0 < w) (hh : 0 < h) :
    (∀ p ∈ _random_points_in_ellipse cosA sinA u n w h,
      |p.1| ≤ w / 2 ∧ |p.2| ≤ h / 2 ∧
        (2 * p.1 / w) ^ 2 + (2 * p.2 / h) ^ 2 ≤ 1) ∧
    (∀ p ∈ _random_points_in_rectangle u n w h,
      |p.1| ≤ w / 2 ∧ |p.2| ≤ h / 2) := by
  have habs1 : ∀ v : ℚ, v ^ 2 ≤ 1 → |v| ≤ 1 := by
    intro v hv
    refine abs_le.mpr ⟨by nlinarith [sq_nonneg (v + 1)], by nlinarith [sq_nonneg (v - 1)]⟩
  have huabs : ∀ k, |u k| ≤ 1 := fun k =>
    abs_le.mpr ⟨by linarith [(hu k).1], (hu k).2⟩
  constructor
  · intro p hp
    rw [_random_points_in_ellipse] at hp
    simp only [List.mem_map, List.mem_range] at hp
    obtain ⟨i, hi, rfl⟩ := hp
    have hc2 : cosA (u (3 * i + 2)) ^ 2 ≤ 1 := by
      nlinarith [sq_nonneg (sinA (u (3 * i + 2))), htrig (u (3 * i + 2))]
    have hs2 : sinA (u (3 * i + 2)) ^ 2 ≤ 1 := by
      nlinarith [sq_nonneg (cosA (u (3 * i + 2))), htrig (u (3 * i + 2))]
    have hcabs := habs1 _ hc2
    have hsabs := habs1 _ hs2
    have hwpos : (0:ℚ) < w / 2 := by positivity
    have hhpos : (0:ℚ) < h / 2 := by positivity
    refine ⟨?_, ?_, ?_⟩
    · rw [abs_mul, abs_mul, abs_of_pos hwpos]
      nlinarith [huabs (3 * i), hcabs, abs_nonneg (u (3 * i)),
        abs_nonneg (cosA (u (3 * i + 2))),
        mul_le_mul (huabs (3 * i)) hcabs (abs_nonneg _) zero_le_one]
    · rw [abs_mul, abs_mul, abs_of_pos hhpos]
      nlinarith [huabs (3 * i + 1), hsabs, abs_nonneg (u (3 * i + 1)),
        abs_nonneg (sinA (u (3 * i + 2))),
        mul_le_mul (huabs (3 * i + 1)) hsabs (abs_nonneg _) zero_le_one]
    · have hwne : w ≠ 0 := ne_of_gt hw
      have hhne : h ≠ 0 := ne_of_gt hh
      have e1 : 2 * (u (3 * i) * (w / 2 * cosA (u (3 * i + 2)))) / w
          = u (3 * i) * cosA (u (3 * i + 2)) := by
        field_simp
        ring
      have e2 : 2 * (u (3 * i + 1) * (h / 2 * sinA (u (3 * i + 2)))) / h
          = u (3 * i + 1) * sinA (u (3 * i + 2)) := by
        field_simp
        ring
      rw [e1, e2]
      have hu0 : u (3 * i) ^ 2 ≤ 1 := by
        nlinarith [(hu (3 * i)).1, (hu (3 * i)).2]
      have hu1 : u (3 * i + 1) ^ 2 ≤ 1 := by
        nlinarith [(hu (3 * i + 1)).1, (hu (3 * i + 1)).2]
      have k1 : u (3 * i) ^ 2 * cosA (u (3 * i + 2)) ^ 2
          ≤ cosA (u (3 * i + 2)) ^ 2 := by
        nlinarith [sq_nonneg (cosA (u (3 * i + 2)))]
      have k2 : u (3 * i + 1) ^ 2 * sinA (u (3 * i + 2)) ^ 2
          ≤ sinA (u (3 * i + 2)) ^ 2 := by
        nlinarith [sq_nonneg (sinA (u (3 * i + 2)))]
      calc (u (3 * i) * cosA (u (3 * i + 2))) ^ 2
            + (u (3 * i + 1) * sinA (u (3 * i + 2))) ^ 2
          = u (3 * i) ^ 2 * cosA (u (3 * i + 2)) ^ 2
            + u (3 * i + 1) ^ 2 * sinA (u (3 * i + 2)) ^ 2 := by ring
        _ ≤ cosA (u (3 * i + 2)) ^ 2 + sinA (u (3 * i + 2)) ^ 2 := by linarith
        _ = 1 := htrig (u (3 * i + 2))
  · intro p hp
    rw [_random_points_in_rectangle] at hp
    simp only [List.mem_map, List.mem_range] at hp
    obtain ⟨i, hi, rfl⟩ := hp
    constructor
    · exact abs_le.mpr ⟨by nlinarith [(hu (2 * i)).1], by nlinarith [(hu (2 * i)).2]⟩
    · exact abs_le.mpr ⟨by nlinarith [(hu (2 * i + 1)).1], by nlinarith [(hu (2 * i + 1)).2]⟩

/-- Uniform stream for the C10 witness: constantly 1/2. -/
def uC10 : ℕ → ℚ := fun _ => 1/2

/-- Witness for C10 at the trig pair (3/5, 4/5), the constant stream 1/2,
n = 1 and extents 2 x 2. -/
theorem claim10_sampler_bounds_witness :
    (∀ t : ℚ, cosC8 t ^ 2 + sinC8 t ^ 2 = 1) ∧
    (∀ k : ℕ, 0 ≤ uC10 k ∧ uC10 k ≤ 1) ∧
    (0:ℚ) < 2 ∧
    ((∀ p ∈ _random_points_in_ellipse cosC8 sinC8 uC10 1 2 2,
      |p.1| ≤ 2 / 2 ∧ |p.2| ≤ 2 / 2 ∧
        (2 * p.1 / 2) ^ 2 + (2 * p.2 / 2) ^ 2 ≤ 1) ∧
    (∀ p ∈ _random_points_in_rectangle uC10 1 2 2,
      |p.1| ≤ 2 / 2 ∧ |p.2| ≤ 2 / 2)) :=
  ⟨fun t => by norm_num [cosC8, sinC8],
   fun k => by norm_num [uC10],
   by norm_num,
   claim10_sampler_bounds cosC8 sinC8 (fun t => by norm_num [cosC8, sinC8])
     uC10 (fun k => by norm_num [uC10]) 1 2 2 (by norm_num) (by norm_num)⟩
